import Mathlib

/-!
Verification development for the VoiceHub backup-restore endpoint
(`server/api/admin/backup/restore.post.ts`).

The endpoint is shallowly embedded: the relational store is a record of lists
of typed rows (one list per Prisma model the endpoint touches), Prisma
operations become pure functions on that record, fallible operations return
`Except String`, and the handler itself is a pure function from the request
context, the filesystem (a map from resolved paths to parsed backup
documents) and the initial store to a response, the final store, and the
trace of file paths read.
-/

set_option autoImplicit false

namespace VoiceHub

/-- JS template `x ? new Date(x) : null`: `undefined`, `null` and the empty
string are falsy and give `null`; otherwise the serialized date is kept.
Dates are modelled by their serialized string. -/
def toDate : Option String → Option String
  | none => none
  | some s => if s = "" then none else some s

/-- A backup record: an untyped JSON object, modelled as one structure
carrying every field the restore switch reads, with JS-style defaults for
absent fields.  `userClass` models the `class` field (a Lean keyword). -/
structure Rec where
  id : Nat := 0
  username : String := ""
  name : String := ""
  password : String := ""
  grade : String := ""
  userClass : String := ""
  role : String := ""
  lastLogin : Option String := none
  lastLoginIp : String := ""
  passwordChangedAt : Option String := none
  title : String := ""
  artist : String := ""
  requesterId : Nat := 0
  played : Bool := false
  playedAt : Option String := none
  semester : String := ""
  preferredPlayTimeId : Option Nat := none
  cover : String := ""
  musicPlatform : String := ""
  musicId : String := ""
  startTime : String := ""
  endTime : String := ""
  enabled : Bool := false
  description : String := ""
  isActive : Bool := false
  enablePlayTimeSelection : Bool := false
deriving DecidableEq

/-- A stored `User` row (only the columns the restore endpoint touches). -/
structure UserRow where
  username : String
  name : String
  password : String
  grade : String
  userClass : String
  role : String
  lastLogin : Option String
  lastLoginIp : String
  passwordChangedAt : Option String
deriving DecidableEq

/-- A stored `Song` row. -/
structure SongRow where
  id : Nat
  title : String
  artist : String
  requesterId : Nat
  played : Bool
  playedAt : Option String
  semester : String
  preferredPlayTimeId : Option Nat
  cover : String
  musicPlatform : String
  musicId : String
deriving DecidableEq

/-- A stored `PlayTime` row. -/
structure PlayTimeRow where
  id : Nat
  name : String
  startTime : String
  endTime : String
  enabled : Bool
  description : String
deriving DecidableEq

/-- A stored `Semester` row. -/
structure SemesterRow where
  name : String
  isActive : Bool
deriving DecidableEq

/-- A stored `SystemSettings` row. -/
structure SettingsRow where
  id : Nat
  enablePlayTimeSelection : Bool
deriving DecidableEq

/-- The relational store.  Tables the endpoint only ever deletes from
(`votes`, `schedules`, `notificationSettings`, `notifications`) are modelled
by their row count.  `next…Id` are the autoincrement sequences used when a
`create` call supplies no `id`. -/
structure DB where
  users : List UserRow := []
  songs : List SongRow := []
  playTimes : List PlayTimeRow := []
  semesters : List SemesterRow := []
  systemSettings : List SettingsRow := []
  votes : Nat := 0
  schedules : Nat := 0
  notificationSettings : Nat := 0
  notifications : Nat := 0
  nextSongId : Nat := 1
  nextPlayTimeId : Nat := 1
  nextSettingsId : Nat := 1
deriving DecidableEq

/-- The row built by the `create` branches for users (lines 137-147 and
150-162 of the source; both object literals are identical). -/
def newUserRow (r : Rec) : UserRow :=
  { username := r.username
    name := r.name
    password := r.password
    grade := r.grade
    userClass := r.userClass
    role := r.role
    lastLogin := toDate r.lastLogin
    lastLoginIp := r.lastLoginIp
    passwordChangedAt := toDate r.passwordChangedAt }

/-- `tx.user.upsert` keyed on `username` (lines 126-148).  The `update`
branch writes name, grade, class, role, lastLogin, lastLoginIp and
passwordChangedAt — not `password` and not `username`. -/
def userUpsert (r : Rec) (db : DB) : DB :=
  if db.users.any (fun u => u.username = r.username) then
    { db with users := db.users.map (fun u =>
        if u.username = r.username then
          { u with
            name := r.name
            grade := r.grade
            userClass := r.userClass
            role := r.role
            lastLogin := toDate r.lastLogin
            lastLoginIp := r.lastLoginIp
            passwordChangedAt := toDate r.passwordChangedAt }
        else u) }
  else
    { db with users := db.users ++ [newUserRow r] }

/-- Message produced by the store when an insert violates a unique key. -/
def uniqueViolationMsg (field : String) : String :=
  "Unique constraint failed on the fields: (" ++ field ++ ")"

/-- `tx.user.create` (lines 150-162): unconditional insert, which fails if
the unique `username` already exists. -/
def userCreate (r : Rec) (db : DB) : Except String DB :=
  if db.users.any (fun u => u.username = r.username) then
    .error (uniqueViolationMsg "username")
  else
    .ok { db with users := db.users ++ [newUserRow r] }

/-- The `songData` object literal (lines 167-178): every stored column
except `id`, which is supplied separately (`record.id` on merge-create, the
autoincrement sequence on replace-create). -/
def songFields (r : Rec) (i : Nat) : SongRow :=
  { id := i
    title := r.title
    artist := r.artist
    requesterId := r.requesterId
    played := r.played
    playedAt := toDate r.playedAt
    semester := r.semester
    preferredPlayTimeId := r.preferredPlayTimeId
    cover := r.cover
    musicPlatform := r.musicPlatform
    musicId := r.musicId }

/-- `tx.song.upsert` keyed on `id` (lines 181-185); update writes
`songData`, create writes `songData` plus `id: record.id`. -/
def songUpsert (r : Rec) (db : DB) : DB :=
  if db.songs.any (fun s => s.id = r.id) then
    { db with songs := db.songs.map (fun s =>
        if s.id = r.id then songFields r s.id else s) }
  else
    { db with songs := db.songs ++ [songFields r r.id] }

/-- `tx.song.create` with `data: songData` (line 187): no `id` supplied,
so the store assigns the next autoincrement value; never a key conflict. -/
def songCreate (r : Rec) (db : DB) : Except String DB :=
  .ok { db with
        songs := db.songs ++ [songFields r db.nextSongId]
        nextSongId := db.nextSongId + 1 }

/-- The playTime columns other than `id` (shared by lines 195-208 and
214-218 of the source). -/
def playTimeFields (r : Rec) (i : Nat) : PlayTimeRow :=
  { id := i
    name := r.name
    startTime := r.startTime
    endTime := r.endTime
    enabled := r.enabled
    description := r.description }

/-- `tx.playTime.upsert` keyed on `id` (lines 193-210). -/
def playTimeUpsert (r : Rec) (db : DB) : DB :=
  if db.playTimes.any (fun p => p.id = r.id) then
    { db with playTimes := db.playTimes.map (fun p =>
        if p.id = r.id then playTimeFields r p.id else p) }
  else
    { db with playTimes := db.playTimes ++ [playTimeFields r r.id] }

/-- `tx.playTime.create` (lines 212-220): no `id` supplied. -/
def playTimeCreate (r : Rec) (db : DB) : Except String DB :=
  .ok { db with
        playTimes := db.playTimes ++ [playTimeFields r db.nextPlayTimeId]
        nextPlayTimeId := db.nextPlayTimeId + 1 }

/-- `tx.semester.upsert` keyed on `name` (lines 226-235); update writes
only `isActive`. -/
def semesterUpsert (r : Rec) (db : DB) : DB :=
  if db.semesters.any (fun s => s.name = r.name) then
    { db with semesters := db.semesters.map (fun s =>
        if s.name = r.name then { s with isActive := r.isActive } else s) }
  else
    { db with semesters := db.semesters ++ [⟨r.name, r.isActive⟩] }

/-- `tx.semester.create` (lines 237-242): fails if the unique `name`
already exists. -/
def semesterCreate (r : Rec) (db : DB) : Except String DB :=
  if db.semesters.any (fun s => s.name = r.name) then
    .error (uniqueViolationMsg "name")
  else
    .ok { db with semesters := db.semesters ++ [⟨r.name, r.isActive⟩] }

/-- `tx.systemSettings.upsert` keyed on `id` (lines 248-257); update writes
only `enablePlayTimeSelection`. -/
def settingsUpsert (r : Rec) (db : DB) : DB :=
  if db.systemSettings.any (fun s => s.id = r.id) then
    { db with systemSettings := db.systemSettings.map (fun s =>
        if s.id = r.id then
          { s with enablePlayTimeSelection := r.enablePlayTimeSelection }
        else s) }
  else
    { db with systemSettings :=
        db.systemSettings ++ [⟨r.id, r.enablePlayTimeSelection⟩] }

/-- `tx.systemSettings.create` (lines 259-263): no `id` supplied. -/
def settingsCreate (r : Rec) (db : DB) : Except String DB :=
  .ok { db with
        systemSettings :=
          db.systemSettings ++ [⟨db.nextSettingsId, r.enablePlayTimeSelection⟩]
        nextSettingsId := db.nextSettingsId + 1 }

/-- The aggregate `restoreResults.details` object (lines 61-66). -/
structure RestoreDetails where
  tablesProcessed : Nat := 0
  recordsRestored : Nat := 0
  errors : List String := []
  warnings : List String := []
deriving DecidableEq

/-- The aggregate `restoreResults` object (lines 58-67). -/
structure RestoreResult where
  success : Bool
  message : String
  details : RestoreDetails
deriving DecidableEq

/-- Outcome of one iteration of the per-record loop body (lines 120-277):
the switch applied a store operation (`restoredCount++` runs), hit the
`default: continue` branch, or threw and was caught by the per-record
catch. -/
inductive StepOutcome where
  | applied (db : DB)
  | skipped
  | failed (msg : String)
deriving DecidableEq

/-- The `switch (tableName)` dispatch (lines 123-271): five collections
have handlers, each choosing upsert on `mode === 'merge'` and insert-only
otherwise; any other table name falls to `default: continue`. -/
def restoreRecord (mode tableName : String) (r : Rec) (db : DB) : StepOutcome :=
  match tableName with
  | "users" =>
    if mode = "merge" then .applied (userUpsert r db)
    else match userCreate r db with
      | .ok db2 => .applied db2
      | .error m => .failed m
  | "songs" =>
    if mode = "merge" then .applied (songUpsert r db)
    else match songCreate r db with
      | .ok db2 => .applied db2
      | .error m => .failed m
  | "playTimes" =>
    if mode = "merge" then .applied (playTimeUpsert r db)
    else match playTimeCreate r db with
      | .ok db2 => .applied db2
      | .error m => .failed m
  | "semesters" =>
    if mode = "merge" then .applied (semesterUpsert r db)
    else match semesterCreate r db with
      | .ok db2 => .applied db2
      | .error m => .failed m
  | "systemSettings" =>
    if mode = "merge" then .applied (settingsUpsert r db)
    else match settingsCreate r db with
      | .ok db2 => .applied db2
      | .error m => .failed m
  | _ => .skipped

/-- The `for (const record of tableData)` loop (lines 120-278), threading
the store, `restoredCount` and the growing `errors` list.  A failed record
appends one `tableName: message` entry and the loop continues. -/
def restoreTable (mode tableName : String) (recs : List Rec) (db : DB)
    (cnt : Nat) (errs : List String) : DB × Nat × List String :=
  match recs with
  | [] => (db, cnt, errs)
  | r :: rest =>
    match restoreRecord mode tableName r db with
    | .applied db2 => restoreTable mode tableName rest db2 (cnt + 1) errs
    | .skipped => restoreTable mode tableName rest db cnt errs
    | .failed m =>
        restoreTable mode tableName rest db cnt
          (errs ++ [tableName ++ ": " ++ m])

/-- The fixed `restoreOrder` array (lines 91-101). -/
def restoreOrder : List String :=
  ["systemSettings", "playTimes", "semesters", "users", "songs",
   "votes", "schedules", "notificationSettings", "notifications"]

/-- Lookup of `backupData.data[tableName]` in the document's collection
map, modelled as an association list (first binding wins). -/
def lookupData (data : List (String × List Rec)) (t : String) :
    Option (List Rec) :=
  match data with
  | [] => none
  | (k, v) :: rest => if k = t then some v else lookupData rest t

/-- The transaction body (lines 104-289): iterate `restoreOrder`; skip a
table that is absent (`!backupData.data[tableName]`) or empty
(`tableData.length === 0`); otherwise run the record loop, then add its
`restoredCount` to `recordsRestored` and increment `tablesProcessed`.  The
outer per-table catch (line 284) is unreachable in this model because
every record-level failure is already caught inside the loop. -/
def processTables (mode : String) (order : List String)
    (data : List (String × List Rec)) (db : DB) (d : RestoreDetails) :
    DB × RestoreDetails :=
  match order with
  | [] => (db, d)
  | t :: rest =>
    match lookupData data t with
    | none => processTables mode rest data db d
    | some recs =>
      if recs.length = 0 then processTables mode rest data db d
      else
        match restoreTable mode t recs db 0 [] with
        | (db2, cnt, errs) =>
          processTables mode rest data db2
            { d with
              recordsRestored := d.recordsRestored + cnt
              tablesProcessed := d.tablesProcessed + 1
              errors := d.errors ++ errs }

/-- The pre-clear block's effect when every `deleteMany` succeeds
(lines 74-82): all rows of all nine tables are removed.  Autoincrement
sequences are not reset by `deleteMany`. -/
def clearAll (db : DB) : DB :=
  { db with
    users := []
    songs := []
    playTimes := []
    semesters := []
    systemSettings := []
    votes := 0
    schedules := 0
    notificationSettings := 0
    notifications := 0 }

/-- The sequence of Prisma models the pre-clear block deletes from, in
source order (lines 74-82). -/
def deleteOrder : List String :=
  ["notification", "notificationSettings", "schedule", "vote", "song",
   "user", "playTime", "semester", "systemSettings"]

/-- The Prisma model name backing each collection name of
`restoreOrder`. -/
def modelName : String → String
  | "systemSettings" => "systemSettings"
  | "playTimes" => "playTime"
  | "semesters" => "semester"
  | "users" => "user"
  | "songs" => "song"
  | "votes" => "vote"
  | "schedules" => "schedule"
  | "notificationSettings" => "notificationSettings"
  | "notifications" => "notification"
  | s => s

/-- One `prisma.<model>.deleteMany()` call: empties that model's table and
touches nothing else. -/
def deleteMany (t : String) (db : DB) : DB :=
  match t with
  | "notification" => { db with notifications := 0 }
  | "notificationSettings" => { db with notificationSettings := 0 }
  | "schedule" => { db with schedules := 0 }
  | "vote" => { db with votes := 0 }
  | "song" => { db with songs := [] }
  | "user" => { db with users := [] }
  | "playTime" => { db with playTimes := [] }
  | "semester" => { db with semesters := [] }
  | "systemSettings" => { db with systemSettings := [] }
  | _ => db

/-- Run a sequence of `deleteMany` calls left to right. -/
def applyDeletes (ts : List String) (db : DB) : DB :=
  match ts with
  | [] => db
  | t :: rest => applyDeletes rest (deleteMany t db)

/-- The store after the optional pre-clear (lines 70-88).  The nine
`deleteMany` awaits run sequentially outside any transaction, so
`clearFails` models the environment faithfully: `some (k, m)` means the
delete at position `k` of `deleteOrder` threw with message `m` after the
first `k` deletes had already emptied their tables; `none` means all nine
succeeded.  The failure is downgraded to a warning by `runRestore`. -/
def dbAfterClear (clearExisting : Bool)
    (clearFails : Option (Nat × String)) (db : DB) : DB :=
  if clearExisting then
    match clearFails with
    | some f => applyDeletes (deleteOrder.take f.1) db
    | none => clearAll db
  else db

/-- Initial value of `restoreResults` (lines 58-67). -/
def initialResult : RestoreResult :=
  { success := true
    message := "数据恢复完成"
    details := {} }

/-- The warnings the pre-clear leaves in the result (lines 70-88): one
entry when the delete sequence threw, none otherwise. -/
def clearWarnings (clearExisting : Bool)
    (clearFails : Option (Nat × String)) : List String :=
  if clearExisting then
    match clearFails with
    | some f => ["清空数据失败: " ++ f.2]
    | none => []
  else []

/-- The finalization step (lines 295-299): when any error was recorded,
`success` flips to `false` and `message` becomes the
completed-with-errors message; otherwise the initial success result is
returned untouched (bar the accumulated details). -/
def finalizeResult (p : DB × RestoreDetails) : RestoreResult × DB :=
  if p.2.errors.length > 0 then
    ({ success := false, message := "数据恢复完成，但存在错误", details := p.2 }, p.1)
  else
    ({ initialResult with details := p.2 }, p.1)

/-- The restore procedure from the point where the document has been
validated (lines 58-301): optional pre-clear (failure appended to
`warnings`), ordered replay of all collections, then the error
finalization. -/
def runRestore (mode : String) (clearExisting : Bool)
    (clearFails : Option (Nat × String)) (data : List (String × List Rec))
    (db : DB) : RestoreResult × DB :=
  finalizeResult
    (processTables mode restoreOrder data
      (dbAfterClear clearExisting clearFails db)
      { initialResult.details with
        warnings := clearWarnings clearExisting clearFails })

/-- Split a string into `/`-separated components (accumulator is a
reversed list of chars of the current component). -/
def splitPathAux : List Char → List Char → List String
  | [], acc => [String.mk acc.reverse]
  | c :: rest, acc =>
    if c = '/' then String.mk acc.reverse :: splitPathAux rest []
    else splitPathAux rest (c :: acc)

/-- Split a path string into its components. -/
def splitPath (s : String) : List String :=
  splitPathAux s.toList []

/-- One step of Node `path.join` normalization over components: empty and
`.` components vanish, `..` removes the previous component (at an absolute
root it stays at the root, as Node does for absolute paths). -/
def normStep (acc : List String) (c : String) : List String :=
  if c = "" ∨ c = "." then acc
  else if c = ".." then acc.dropLast
  else acc ++ [c]

/-- Node `path.join(base, name)`: append the components of `name` and
normalize.  Absolute paths are modelled as their component list (no
leading slash). -/
def joinNorm (base : List String) (name : String) : List String :=
  (base ++ splitPath name).foldl normStep []

/-- `path.join(process.cwd(), 'backups')` (line 30). -/
def backupDirOf (cwd : List String) : List String :=
  joinNorm cwd "backups"

/-- `path.join(backupDir, filename)` (line 31) — no traversal check is
performed on `filename`. -/
def resolveBackupPath (cwd : List String) (filename : String) :
    List String :=
  joinNorm (backupDirOf cwd) filename

/-- A parsed backup file.  `metadata` carries no information the restore
uses (it is only logged), so it is modelled as `Option Unit`; `data` is the
collection map.  `none` components model an absent field, which is falsy
under the line-45 check. -/
structure BackupDoc where
  metadata : Option Unit
  data : Option (List (String × List Rec))
deriving DecidableEq

/-- The authenticated caller (`event.context.user`), reduced to the one
field the endpoint reads. -/
structure ReqUser where
  role : String
deriving DecidableEq

/-- The request body after destructuring (line 18): `mode` defaults to
`'merge'` and `clearExisting` to `false` when absent; `filename` may be
absent or empty, both falsy. -/
structure ReqBody where
  filename : Option String
  mode : String := "merge"
  clearExisting : Bool := false
deriving DecidableEq

/-- The request-level failures the endpoint throws (lines 10-50),
identified by status code and message. -/
inductive HErr where
  /-- 403 权限不足 (line 11). -/
  | permissionDenied
  /-- 400 请指定备份文件名 (line 21). -/
  | missingFilename
  /-- 404 备份文件不存在或格式错误 (line 38). -/
  | fileError
  /-- 400 备份文件格式无效 (line 46). -/
  | malformed
deriving DecidableEq

/-- The endpoint's response: a thrown request-level error or the restore
summary. -/
inductive Response where
  | err (e : HErr)
  | ok (r : RestoreResult)
deriving DecidableEq

/-- What one invocation of the handler produced: the response, the final
store, and the trace of file paths it read. -/
structure HandlerOut where
  response : Response
  db : DB
  fileReads : List (List String)
deriving DecidableEq

/-- The whole event handler (lines 6-310).  `fsys` maps a resolved path to
the parsed document at that path; `none` covers both an unreadable file
and invalid JSON, which the code folds into one 404 (lines 34-42).
`clearFails` models whether the pre-clear's delete sequence would throw.
The guards run in source order: admin role, `filename` present and
non-empty, file read, then the `metadata`/`data` shape check — all before
the pre-clear and the transaction. -/
def handleRestore (cwd : List String)
    (fsys : List String → Option BackupDoc) (user : Option ReqUser)
    (body : ReqBody) (clearFails : Option (Nat × String)) (db : DB) : HandlerOut :=
  match user with
  | none => ⟨.err .permissionDenied, db, []⟩
  | some u =>
    if u.role = "ADMIN" ∨ u.role = "SUPER_ADMIN" then
      match body.filename with
      | none => ⟨.err .missingFilename, db, []⟩
      | some filename =>
        if filename = "" then ⟨.err .missingFilename, db, []⟩
        else
          let filepath := resolveBackupPath cwd filename
          match fsys filepath with
          | none => ⟨.err .fileError, db, [filepath]⟩
          | some doc =>
            match doc.metadata, doc.data with
            | some _, some data =>
              match runRestore body.mode body.clearExisting clearFails
                  data db with
              | (res, db2) => ⟨.ok res, db2, [filepath]⟩
            | _, _ => ⟨.err .malformed, db, [filepath]⟩
    else ⟨.err .permissionDenied, db, []⟩

/-- A document lacking `metadata`, used as C1's concrete witness. -/
def malDoc : BackupDoc := ⟨none, some [("users", [{ username := "x" }])]⟩

/-- A filesystem holding `malDoc` at the resolved backup path. -/
def malFS : List String → Option BackupDoc := fun p =>
  if p = resolveBackupPath ["srv"] "b.json" then some malDoc else none

/-- A well-formed document sitting outside the backup directory. -/
def outsideDoc : BackupDoc := ⟨some (), some []⟩

/-- A filesystem whose only file is `srv/app/outside.json` — outside the
backup directory `srv/app/backups`. -/
def outsideFS : List String → Option BackupDoc := fun p =>
  if p = ["srv", "app", "outside.json"] then some outsideDoc else none

/-- A store already holding a song whose id is 1, with the autoincrement
sequence at 2. -/
def dupSongDB : DB :=
  { songs := [songFields { id := 1, title := "old" } 1], nextSongId := 2 }

/-- A store already holding user `bob` and semester `Fall`. -/
def dupUserSemDB : DB :=
  { users := [newUserRow { username := "bob" }],
    semesters := [⟨"Fall", true⟩] }

/-- Whether the document supplies a non-empty list of records for
collection `t` — the condition under which the main loop processes the
collection instead of skipping it. -/
def presentNonEmpty (data : List (String × List Rec)) (t : String) : Bool :=
  match lookupData data t with
  | none => false
  | some recs => if recs.length = 0 then false else true

/-- The per-collection `restoredCount` values of the processed
collections, in processing order, threading the store exactly as the main
loop does. -/
def successesFrom (mode : String) (order : List String)
    (data : List (String × List Rec)) (db : DB) : List Nat :=
  match order with
  | [] => []
  | t :: rest =>
    match lookupData data t with
    | none => successesFrom mode rest data db
    | some recs =>
      if recs.length = 0 then successesFrom mode rest data db
      else
        (restoreTable mode t recs db 0 []).2.1 ::
          successesFrom mode rest data (restoreTable mode t recs db 0 []).1

/-- Number of elements of a list satisfying a decidable predicate; used to
count the stored rows carrying a given natural key. -/
def countKey {α : Type} (q : α → Prop) [DecidablePred q] : List α → Nat
  | [] => 0
  | a :: l => (if q a then 1 else 0) + countKey q l

theorem countKey_append {α : Type} (q : α → Prop) [DecidablePred q]
    (l1 l2 : List α) :
    countKey q (l1 ++ l2) = countKey q l1 + countKey q l2 := by
  induction l1 with
  | nil => simp [countKey]
  | cons a l ih => simp [countKey, ih]; omega

theorem countKey_any_false {α : Type} {q : α → Prop} [DecidablePred q]
    {l : List α} (h : l.any (fun a => decide (q a)) = false) :
    countKey q l = 0 := by
  induction l with
  | nil => rfl
  | cons a l ih =>
    simp only [List.any_cons, Bool.or_eq_false_iff] at h
    have ha : ¬ q a := by simpa using h.1
    simp [countKey, ha, ih h.2]

theorem countKey_any_true {α : Type} {q : α → Prop} [DecidablePred q]
    {l : List α} (h : l.any (fun a => decide (q a)) = true) :
    1 ≤ countKey q l := by
  induction l with
  | nil => simp at h
  | cons a l ih =>
    simp only [List.any_cons, Bool.or_eq_true] at h
    rcases h with h | h
    · have ha : q a := by simpa using h
      simp [countKey, ha]
    · have := ih h
      simp [countKey]
      omega

theorem countKey_map_upsert {α : Type} (q : α → Prop) [DecidablePred q]
    (f : α → α) (hf : ∀ a, q a → q (f a)) (l : List α) :
    countKey q (l.map (fun a => if q a then f a else a)) = countKey q l := by
  induction l with
  | nil => rfl
  | cons a l ih =>
    by_cases ha : q a
    · simp [countKey, ha, hf a ha, ih]
    · simp [countKey, ha, ih]

theorem userUpsert_count (r : Rec) (db : DB)
    (h : countKey (fun u => u.username = r.username) db.users ≤ 1) :
    countKey (fun u => u.username = r.username) (userUpsert r db).users
      = 1 := by
  unfold userUpsert
  split
  · next hany =>
    have h1 := countKey_any_true hany
    have hmap := countKey_map_upsert (fun u : UserRow => u.username = r.username)
      (fun u : UserRow =>
        { u with
          name := r.name
          grade := r.grade
          userClass := r.userClass
          role := r.role
          lastLogin := toDate r.lastLogin
          lastLoginIp := r.lastLoginIp
          passwordChangedAt := toDate r.passwordChangedAt })
      (fun a ha => ha) db.users
    simpa [hmap] using by omega
  · next hany =>
    have h0 := countKey_any_false (Bool.of_not_eq_true hany)
    simp [countKey_append, h0, countKey, newUserRow]

theorem songUpsert_count (r : Rec) (db : DB)
    (h : countKey (fun s => s.id = r.id) db.songs ≤ 1) :
    countKey (fun s => s.id = r.id) (songUpsert r db).songs = 1 := by
  unfold songUpsert
  split
  · next hany =>
    have h1 := countKey_any_true hany
    have hmap := countKey_map_upsert (fun s : SongRow => s.id = r.id)
      (fun s : SongRow => songFields r s.id) (fun a ha => ha) db.songs
    simpa [hmap] using by omega
  · next hany =>
    have h0 := countKey_any_false (Bool.of_not_eq_true hany)
    simp [countKey_append, h0, countKey, songFields]

theorem playTimeUpsert_count (r : Rec) (db : DB)
    (h : countKey (fun p => p.id = r.id) db.playTimes ≤ 1) :
    countKey (fun p => p.id = r.id) (playTimeUpsert r db).playTimes = 1 := by
  unfold playTimeUpsert
  split
  · next hany =>
    have h1 := countKey_any_true hany
    have hmap := countKey_map_upsert (fun p : PlayTimeRow => p.id = r.id)
      (fun p : PlayTimeRow => playTimeFields r p.id) (fun a ha => ha)
      db.playTimes
    simpa [hmap] using by omega
  · next hany =>
    have h0 := countKey_any_false (Bool.of_not_eq_true hany)
    simp [countKey_append, h0, countKey, playTimeFields]

theorem semesterUpsert_count (r : Rec) (db : DB)
    (h : countKey (fun s => s.name = r.name) db.semesters ≤ 1) :
    countKey (fun s => s.name = r.name) (semesterUpsert r db).semesters
      = 1 := by
  unfold semesterUpsert
  split
  · next hany =>
    have h1 := countKey_any_true hany
    have hmap := countKey_map_upsert (fun s : SemesterRow => s.name = r.name)
      (fun s : SemesterRow => { s with isActive := r.isActive })
      (fun a ha => ha) db.semesters
    simpa [hmap] using by omega
  · next hany =>
    have h0 := countKey_any_false (Bool.of_not_eq_true hany)
    simp [countKey_append, h0, countKey]

theorem settingsUpsert_count (r : Rec) (db : DB)
    (h : countKey (fun s => s.id = r.id) db.systemSettings ≤ 1) :
    countKey (fun s => s.id = r.id) (settingsUpsert r db).systemSettings
      = 1 := by
  unfold settingsUpsert
  split
  · next hany =>
    have h1 := countKey_any_true hany
    have hmap := countKey_map_upsert (fun s : SettingsRow => s.id = r.id)
      (fun s : SettingsRow =>
        { s with enablePlayTimeSelection := r.enablePlayTimeSelection })
      (fun a ha => ha) db.systemSettings
    simpa [hmap] using by omega
  · next hany =>
    have h0 := countKey_any_false (Bool.of_not_eq_true hany)
    simp [countKey_append, h0, countKey]

/-- C3: a `merge`-mode restore upserts on the collection's natural unique
key (`username` for users, `id` for songs, playTimes and systemSettings,
`name` for semesters), so restoring the same record twice leaves exactly
one stored row carrying that key: the second upsert updates in place
instead of inserting a duplicate. -/
theorem merge_restore_twice_idempotent (r : Rec) (db : DB)
    (h1 : countKey (fun u => u.username = r.username) db.users ≤ 1)
    (h2 : countKey (fun s => s.id = r.id) db.songs ≤ 1)
    (h3 : countKey (fun p => p.id = r.id) db.playTimes ≤ 1)
    (h4 : countKey (fun s => s.name = r.name) db.semesters ≤ 1)
    (h5 : countKey (fun s => s.id = r.id) db.systemSettings ≤ 1) :
    countKey (fun u => u.username = r.username)
        (userUpsert r (userUpsert r db)).users = 1
    ∧ countKey (fun s => s.id = r.id)
        (songUpsert r (songUpsert r db)).songs = 1
    ∧ countKey (fun p => p.id = r.id)
        (playTimeUpsert r (playTimeUpsert r db)).playTimes = 1
    ∧ countKey (fun s => s.name = r.name)
        (semesterUpsert r (semesterUpsert r db)).semesters = 1
    ∧ countKey (fun s => s.id = r.id)
        (settingsUpsert r (settingsUpsert r db)).systemSettings = 1 := by
  refine ⟨?_, ?_, ?_, ?_, ?_⟩
  · exact userUpsert_count r _ (le_of_eq (userUpsert_count r db h1))
  · exact songUpsert_count r _ (le_of_eq (songUpsert_count r db h2))
  · exact playTimeUpsert_count r _ (le_of_eq (playTimeUpsert_count r db h3))
  · exact semesterUpsert_count r _ (le_of_eq (semesterUpsert_count r db h4))
  · exact settingsUpsert_count r _ (le_of_eq (settingsUpsert_count r db h5))

/-- Witness for C3 at a concrete record and an empty store. -/
theorem merge_restore_twice_idempotent_witness :
    countKey (fun u => u.username = ({ username := "alice" } : Rec).username)
        (userUpsert { username := "alice" }
          (userUpsert { username := "alice" } {})).users = 1
    ∧ countKey (fun s => s.id = ({ username := "alice" } : Rec).id)
        (songUpsert { username := "alice" }
          (songUpsert { username := "alice" } {})).songs = 1
    ∧ countKey (fun p => p.id = ({ username := "alice" } : Rec).id)
        (playTimeUpsert { username := "alice" }
          (playTimeUpsert { username := "alice" } {})).playTimes = 1
    ∧ countKey (fun s => s.name = ({ username := "alice" } : Rec).name)
        (semesterUpsert { username := "alice" }
          (semesterUpsert { username := "alice" } {})).semesters = 1
    ∧ countKey (fun s => s.id = ({ username := "alice" } : Rec).id)
        (settingsUpsert { username := "alice" }
          (settingsUpsert { username := "alice" } {})).systemSettings = 1 :=
  merge_restore_twice_idempotent { username := "alice" } {}
    (by decide) (by decide) (by decide) (by decide) (by decide)

/-- C9: the `merge` upsert for `users` updates name, grade, class, role,
lastLogin, lastLoginIp and passwordChangedAt of an existing row while
keeping its stored `password` (and `username`); the backup's password is
only written through the create branch, taken when no row with that
username exists. -/
theorem merge_user_upsert_preserves_password (r : Rec) (db : DB)
    (h : db.users.any (fun u => u.username = r.username) = true) :
    (userUpsert r db).users = db.users.map (fun u =>
      if u.username = r.username then
        { username := u.username
          name := r.name
          password := u.password
          grade := r.grade
          userClass := r.userClass
          role := r.role
          lastLogin := toDate r.lastLogin
          lastLoginIp := r.lastLoginIp
          passwordChangedAt := toDate r.passwordChangedAt }
      else u)
    ∧ (∀ db' : DB, db'.users.any (fun u => u.username = r.username) = false →
        (userUpsert r db').users = db'.users ++ [newUserRow r])
    ∧ (newUserRow r).password = r.password := by
  refine ⟨?_, ?_, rfl⟩
  · simp only [userUpsert, h, if_true]
  · intro db' h'
    simp [userUpsert, h']

/-- Witness for C9: a store holding one user `alice` with password `old`;
upserting a backup record for `alice` with password `leak` keeps `old`. -/
theorem merge_user_upsert_preserves_password_witness :
    (userUpsert { username := "alice", password := "leak", name := "A2" }
        { users := [{ username := "alice", name := "A1", password := "old",
                      grade := "", userClass := "", role := "MEMBER",
                      lastLogin := none, lastLoginIp := "",
                      passwordChangedAt := none }] }).users
      = [{ username := "alice", name := "A2", password := "old",
           grade := "", userClass := "", role := "",
           lastLogin := none, lastLoginIp := "",
           passwordChangedAt := none }] := by
  have h := merge_user_upsert_preserves_password
    { username := "alice", password := "leak", name := "A2" }
    { users := [{ username := "alice", name := "A1", password := "old",
                  grade := "", userClass := "", role := "MEMBER",
                  lastLogin := none, lastLoginIp := "",
                  passwordChangedAt := none }] } (by decide)
  rw [h.1]
  decide

/-- C10: under `replace`, songs, playTimes and systemSettings rows are
inserted without the backup record's `id`, so the store's autoincrement
sequence assigns the identifier — which differs from the backup id
whenever the sequence is elsewhere — while field values such as a song's
`preferredPlayTimeId` are copied verbatim; under `merge` the create branch
supplies `record.id` itself. -/
theorem replace_create_ignores_backup_ids (r : Rec) (db : DB) :
    songCreate r db
      = .ok { db with
              songs := db.songs ++ [songFields r db.nextSongId]
              nextSongId := db.nextSongId + 1 }
    ∧ (songFields r db.nextSongId).id = db.nextSongId
    ∧ (songFields r db.nextSongId).preferredPlayTimeId
        = r.preferredPlayTimeId
    ∧ (r.id ≠ db.nextSongId → (songFields r db.nextSongId).id ≠ r.id)
    ∧ playTimeCreate r db
      = .ok { db with
              playTimes := db.playTimes ++ [playTimeFields r db.nextPlayTimeId]
              nextPlayTimeId := db.nextPlayTimeId + 1 }
    ∧ settingsCreate r db
      = .ok { db with
              systemSettings :=
                db.systemSettings ++ [⟨db.nextSettingsId, r.enablePlayTimeSelection⟩]
              nextSettingsId := db.nextSettingsId + 1 }
    ∧ (db.songs.any (fun s => s.id = r.id) = false →
        (songUpsert r db).songs = db.songs ++ [songFields r r.id])
    ∧ (db.playTimes.any (fun p => p.id = r.id) = false →
        (playTimeUpsert r db).playTimes
          = db.playTimes ++ [playTimeFields r r.id])
    ∧ (db.systemSettings.any (fun s => s.id = r.id) = false →
        (settingsUpsert r db).systemSettings
          = db.systemSettings ++ [⟨r.id, r.enablePlayTimeSelection⟩]) := by
  refine ⟨rfl, rfl, rfl, ?_, rfl, rfl, ?_, ?_, ?_⟩
  · intro h
    simpa [songFields] using fun he => h he.symm
  · intro h
    simp [songUpsert, h]
  · intro h
    simp [playTimeUpsert, h]
  · intro h
    simp [settingsUpsert, h]

/-- Witness for C10: with an empty store (sequence at 1) and a backup song
with id 5, the replace-inserted row gets id 1, not 5; a merge upsert keeps
id 5. -/
theorem replace_create_ignores_backup_ids_witness :
    (songFields ({ id := 5 } : Rec) ({} : DB).nextSongId).id
        ≠ ({ id := 5 } : Rec).id
    ∧ (songUpsert { id := 5 } {}).songs
        = ({} : DB).songs ++ [songFields { id := 5 } ({ id := 5 } : Rec).id] :=
  ⟨(replace_create_ignores_backup_ids { id := 5 } {}).2.2.2.1 (by decide),
   (replace_create_ignores_backup_ids { id := 5 } {}).2.2.2.2.2.2.1
     (by decide)⟩

theorem finalizeResult_spec (p : DB × RestoreDetails) :
    (finalizeResult p).1.success = decide (p.2.errors = [])
    ∧ (finalizeResult p).1.message
        = (if p.2.errors = [] then initialResult.message
           else "数据恢复完成，但存在错误")
    ∧ (finalizeResult p).1.details = p.2
    ∧ (finalizeResult p).2 = p.1 := by
  by_cases h : p.2.errors = []
  · simp [finalizeResult, h, initialResult]
  · have hl : 0 < p.2.errors.length := List.length_pos.mpr h
    simp [finalizeResult, hl, h]

/-- C7: after all collections are processed, `success` is `false` exactly
when `errors` is non-empty, and the message is the completed-with-errors
message exactly then; with no errors (warnings or not) the initial success
result, message included, is returned untouched. -/
theorem errors_flip_success_and_message (mode : String) (ce : Bool)
    (cf : Option (Nat × String)) (data : List (String × List Rec)) (db : DB) :
    (runRestore mode ce cf data db).1.success
      = decide ((runRestore mode ce cf data db).1.details.errors = [])
    ∧ (runRestore mode ce cf data db).1.message
      = (if (runRestore mode ce cf data db).1.details.errors = []
         then initialResult.message else "数据恢复完成，但存在错误") := by
  have hf := finalizeResult_spec
    (processTables mode restoreOrder data (dbAfterClear ce cf db)
      { initialResult.details with warnings := clearWarnings ce cf })
  have hr : runRestore mode ce cf data db
      = finalizeResult
          (processTables mode restoreOrder data (dbAfterClear ce cf db)
            { initialResult.details with
              warnings := clearWarnings ce cf }) := rfl
  rw [hr, hf.2.2.1]
  exact ⟨hf.1, hf.2.1⟩

/-- C8: a request with no authenticated caller, or whose caller's role is
neither ADMIN nor SUPER_ADMIN, is answered with the permission-denied
error; no file path is read and the store is returned unchanged. -/
theorem non_admin_rejected_before_file_access (cwd : List String)
    (fsys : List String → Option BackupDoc) (user : Option ReqUser)
    (body : ReqBody) (cf : Option (Nat × String)) (db : DB)
    (h : ∀ u : ReqUser, user = some u →
        u.role ≠ "ADMIN" ∧ u.role ≠ "SUPER_ADMIN") :
    handleRestore cwd fsys user body cf db
      = ⟨.err .permissionDenied, db, []⟩ := by
  cases user with
  | none => rfl
  | some u =>
    have hu := h u rfl
    simp [handleRestore, hu.1, hu.2]

/-- Witness for C8: a caller with role `USER` requesting a restore with
`clearExisting` set is turned away with nothing read and nothing
changed. -/
theorem non_admin_rejected_witness :
    handleRestore ["srv"] (fun _ => none) (some ⟨"USER"⟩)
        ⟨some "db.json", "merge", true⟩ none {}
      = ⟨.err .permissionDenied, {}, []⟩ :=
  non_admin_rejected_before_file_access ["srv"] (fun _ => none)
    (some ⟨"USER"⟩) ⟨some "db.json", "merge", true⟩ none {}
    (fun u hu => by cases hu; exact ⟨by decide, by decide⟩)

/-- C1: a backup document whose `metadata` or `data` field is absent is
rejected with the malformed-document error after the file read but before
the pre-clear and the transaction: the store comes back exactly as it
went in, even with `clearExisting` set. -/
theorem malformed_doc_rejected_before_mutation (cwd : List String)
    (fsys : List String → Option BackupDoc) (role fn mode : String)
    (ce : Bool) (cf : Option (Nat × String)) (db : DB) (doc : BackupDoc)
    (hrole : role = "ADMIN" ∨ role = "SUPER_ADMIN") (hfn : ¬ fn = "")
    (hread : fsys (resolveBackupPath cwd fn) = some doc)
    (hmal : doc.metadata = none ∨ doc.data = none) :
    handleRestore cwd fsys (some ⟨role⟩) ⟨some fn, mode, ce⟩ cf db
      = ⟨.err .malformed, db, [resolveBackupPath cwd fn]⟩ := by
  obtain ⟨md, dt⟩ := doc
  rcases hmal with hm | hm
  · simp only at hm
    subst hm
    rcases hrole with h | h <;> subst h <;>
      simp [handleRestore, hfn, hread]
  · simp only at hm
    subst hm
    cases md <;> rcases hrole with h | h <;> subst h <;>
      simp [handleRestore, hfn, hread]

/-- Witness for C1: restoring `b.json` (which parses but has no
`metadata`) with `clearExisting := true` returns the malformed error and
an unchanged store. -/
theorem malformed_doc_rejected_witness :
    ("ADMIN" = "ADMIN" ∨ "ADMIN" = "SUPER_ADMIN")
    ∧ ¬ "b.json" = ""
    ∧ malFS (resolveBackupPath ["srv"] "b.json") = some malDoc
    ∧ (malDoc.metadata = none ∨ malDoc.data = none)
    ∧ handleRestore ["srv"] malFS (some ⟨"ADMIN"⟩)
        ⟨some "b.json", "merge", true⟩ none {}
        = ⟨.err .malformed, {}, [resolveBackupPath ["srv"] "b.json"]⟩ :=
  ⟨Or.inl rfl, by decide, by decide, Or.inl rfl,
   malformed_doc_rejected_before_mutation ["srv"] malFS "ADMIN" "b.json"
     "merge" true none {} malDoc (Or.inl rfl) (by decide) (by decide)
     (Or.inl rfl)⟩

/-- C2 (refuting the claim): the handler joins the caller's `filename`
onto the backup directory with no traversal check, so
`../outside.json` resolves outside `srv/app/backups`, the file there is
read, and the restore proceeds successfully instead of rejecting. -/
theorem path_traversal_reads_outside_backup_dir :
    resolveBackupPath ["srv", "app"] "../outside.json"
        = ["srv", "app", "outside.json"]
    ∧ List.isPrefixOf (backupDirOf ["srv", "app"])
        (resolveBackupPath ["srv", "app"] "../outside.json") = false
    ∧ handleRestore ["srv", "app"] outsideFS (some ⟨"ADMIN"⟩)
        ⟨some "../outside.json", "merge", false⟩ none {}
        = ⟨.ok initialResult, {}, [["srv", "app", "outside.json"]]⟩ := by
  decide

/-- C4 (refuting the claim as stated): under `replace`, restoring a
`songs` record whose natural key (`id` 1) already exists in the store
produces no `errors` entry and the record is counted as restored — the
insert drops the backup id, so no key collision can occur for songs,
playTimes or systemSettings. -/
theorem replace_duplicate_song_key_no_error :
    (dupSongDB.songs.any
        (fun s => s.id = ({ id := 1, title := "new" } : Rec).id)) = true
    ∧ (runRestore "replace" false none
        [("songs", [{ id := 1, title := "new" }])] dupSongDB).1.details.errors
        = []
    ∧ (runRestore "replace" false none
        [("songs", [{ id := 1, title := "new" }])] dupSongDB).1.details.recordsRestored
        = 1
    ∧ ((runRestore "replace" false none
        [("songs", [{ id := 1, title := "new" }])] dupSongDB).2.songs.map
          SongRow.id) = [1, 2] := by
  decide

/-- C4 as amended: under `replace`, for the collections whose natural key
is supplied on insert — users (`username`) and semesters (`name`) — a
record whose key already exists appends exactly one
`collection: message` entry to `errors`, is not counted, and processing
continues with the remaining records; for songs, playTimes and
systemSettings the insert omits the id, so every record applies without a
key error. -/
theorem replace_duplicate_key_error_recorded (r : Rec) (rest : List Rec)
    (db : DB) (cnt : Nat) (errs : List String)
    (hu : db.users.any (fun u => u.username = r.username) = true)
    (hs : db.semesters.any (fun s => s.name = r.name) = true) :
    restoreTable "replace" "users" (r :: rest) db cnt errs
      = restoreTable "replace" "users" rest db cnt
          (errs ++ ["users: " ++ uniqueViolationMsg "username"])
    ∧ restoreTable "replace" "semesters" (r :: rest) db cnt errs
      = restoreTable "replace" "semesters" rest db cnt
          (errs ++ ["semesters: " ++ uniqueViolationMsg "name"])
    ∧ (∀ (r' : Rec) (db' : DB), ∃ db2,
        restoreRecord "replace" "songs" r' db' = .applied db2)
    ∧ (∀ (r' : Rec) (db' : DB), ∃ db2,
        restoreRecord "replace" "playTimes" r' db' = .applied db2)
    ∧ (∀ (r' : Rec) (db' : DB), ∃ db2,
        restoreRecord "replace" "systemSettings" r' db' = .applied db2) := by
  refine ⟨?_, ?_, fun r' db' => ⟨_, rfl⟩, fun r' db' => ⟨_, rfl⟩,
    fun r' db' => ⟨_, rfl⟩⟩
  · conv_lhs => rw [restoreTable]
    simp [restoreRecord, userCreate, hu]
  · conv_lhs => rw [restoreTable]
    simp [restoreRecord, semesterCreate, hs]

/-- Witness for the amended C4 at a concrete record clashing on both
keys. -/
theorem replace_duplicate_key_error_recorded_witness :
    (dupUserSemDB.users.any (fun u =>
        u.username = ({ username := "bob", name := "Fall" } : Rec).username)
      = true)
    ∧ (dupUserSemDB.semesters.any (fun s =>
        s.name = ({ username := "bob", name := "Fall" } : Rec).name) = true)
    ∧ restoreTable "replace" "users"
        [{ username := "bob", name := "Fall" }] dupUserSemDB 0 []
        = restoreTable "replace" "users" [] dupUserSemDB 0
            ([] ++ ["users: " ++ uniqueViolationMsg "username"])
    ∧ restoreTable "replace" "semesters"
        [{ username := "bob", name := "Fall" }] dupUserSemDB 0 []
        = restoreTable "replace" "semesters" [] dupUserSemDB 0
            ([] ++ ["semesters: " ++ uniqueViolationMsg "name"]) :=
  ⟨by decide, by decide,
   (replace_duplicate_key_error_recorded { username := "bob", name := "Fall" }
      [] dupUserSemDB 0 [] (by decide) (by decide)).1,
   (replace_duplicate_key_error_recorded { username := "bob", name := "Fall" }
      [] dupUserSemDB 0 [] (by decide) (by decide)).2.1⟩

theorem lookupData_cons_ne (name : String) (recs : List Rec)
    (data : List (String × List Rec)) (t : String) (h : ¬ name = t) :
    lookupData ((name, recs) :: data) t = lookupData data t := by
  simp [lookupData, h]

theorem processTables_tablesProcessed (mode : String) (order : List String)
    (data : List (String × List Rec)) (db : DB) (d : RestoreDetails) :
    (processTables mode order data db d).2.tablesProcessed
      = d.tablesProcessed + (order.filter (presentNonEmpty data)).length := by
  induction order generalizing db d with
  | nil => simp [processTables]
  | cons t rest ih =>
    cases hl : lookupData data t with
    | none => simp [processTables, hl, ih, presentNonEmpty, List.filter_cons]
    | some recs =>
      rcases hrt : restoreTable mode t recs db 0 [] with ⟨db2, cnt, errs⟩
      by_cases hz : recs.length = 0
      · simp [processTables, hl, hz, ih, presentNonEmpty, List.filter_cons]
      · simp [processTables, hl, hz, hrt, ih, presentNonEmpty,
          List.filter_cons]
        omega

theorem processTables_recordsRestored (mode : String) (order : List String)
    (data : List (String × List Rec)) (db : DB) (d : RestoreDetails) :
    (processTables mode order data db d).2.recordsRestored
      = d.recordsRestored + (successesFrom mode order data db).sum := by
  induction order generalizing db d with
  | nil => simp [processTables, successesFrom]
  | cons t rest ih =>
    cases hl : lookupData data t with
    | none => simp [processTables, successesFrom, hl, ih]
    | some recs =>
      rcases hrt : restoreTable mode t recs db 0 [] with ⟨db2, cnt, errs⟩
      by_cases hz : recs.length = 0
      · simp [processTables, successesFrom, hl, hz, ih]
      · simp [processTables, successesFrom, hl, hz, hrt, ih]
        omega

theorem processTables_congr (mode : String) (order : List String)
    (d1 d2 : List (String × List Rec))
    (h : ∀ t ∈ order, lookupData d1 t = lookupData d2 t) (db : DB)
    (d : RestoreDetails) :
    processTables mode order d1 db d = processTables mode order d2 db d := by
  induction order generalizing db d with
  | nil => rfl
  | cons t rest ih =>
    have ht := h t (by simp)
    have hr : ∀ t' ∈ rest, lookupData d1 t' = lookupData d2 t' :=
      fun t' h' => h t' (by simp [h'])
    simp only [processTables, ht]
    cases h2 : lookupData d2 t with
    | none => exact ih hr db d
    | some recs =>
      dsimp only
      split_ifs with hz
      · exact ih hr db d
      · rcases hrt : restoreTable mode t recs db 0 [] with ⟨db2, cnt, errs⟩
        simp only [hrt]
        exact ih hr db2 _

theorem processTables_set_warnings (mode : String) (order : List String)
    (data : List (String × List Rec)) (db : DB) (d : RestoreDetails)
    (w : List String) :
    processTables mode order data db { d with warnings := w }
      = ((processTables mode order data db d).1,
         { (processTables mode order data db d).2 with warnings := w }) := by
  induction order generalizing db d with
  | nil => rfl
  | cons t rest ih =>
    simp only [processTables]
    cases h2 : lookupData data t with
    | none => exact ih db d
    | some recs =>
      dsimp only
      split_ifs with hz
      · exact ih db d
      · rcases hrt : restoreTable mode t recs db 0 [] with ⟨db2, cnt, errs⟩
        simp only [hrt]
        exact ih db2
          { d with
            tablesProcessed := d.tablesProcessed + 1
            recordsRestored := d.recordsRestored + cnt
            errors := d.errors ++ errs }

/-- C5: `tablesProcessed` counts exactly the known collections (those in
`restoreOrder`) for which the document supplies a non-empty record list;
`recordsRestored` is the sum of the per-collection success counts along
the run; and a collection under a name outside `restoreOrder` is ignored
entirely — adding it to the document changes nothing about the result,
so it is not counted and contributes no error entry. -/
theorem restore_accounting (mode : String) (ce : Bool) (cf : Option (Nat × String))
    (data : List (String × List Rec)) (db : DB) (name : String)
    (recs : List Rec) (hname : name ∉ restoreOrder) :
    (runRestore mode ce cf data db).1.details.tablesProcessed
      = (restoreOrder.filter (presentNonEmpty data)).length
    ∧ (runRestore mode ce cf data db).1.details.recordsRestored
      = (successesFrom mode restoreOrder data (dbAfterClear ce cf db)).sum
    ∧ runRestore mode ce cf ((name, recs) :: data) db
      = runRestore mode ce cf data db := by
  have hf := finalizeResult_spec
    (processTables mode restoreOrder data (dbAfterClear ce cf db)
      { initialResult.details with warnings := clearWarnings ce cf })
  have hr : runRestore mode ce cf data db
      = finalizeResult
          (processTables mode restoreOrder data (dbAfterClear ce cf db)
            { initialResult.details with
              warnings := clearWarnings ce cf }) := rfl
  refine ⟨?_, ?_, ?_⟩
  · rw [hr, hf.2.2.1, processTables_tablesProcessed]
    simp [initialResult]
  · rw [hr, hf.2.2.1, processTables_recordsRestored]
    simp [initialResult]
  · have hc : ∀ t ∈ restoreOrder,
        lookupData ((name, recs) :: data) t = lookupData data t := by
      intro t ht
      exact lookupData_cons_ne name recs data t
        (fun he => hname (he ▸ ht))
    show finalizeResult _ = finalizeResult _
    exact congrArg finalizeResult
      (processTables_congr mode restoreOrder ((name, recs) :: data) data hc
        (dbAfterClear ce cf db)
        { initialResult.details with warnings := clearWarnings ce cf })

/-- Witness for C5: a document holding one semester plus an unknown
collection `foo`; one table processed, one record restored, and dropping
`foo` leaves the result untouched. -/
theorem restore_accounting_witness :
    ("foo" ∉ restoreOrder)
    ∧ (runRestore "merge" false none
        [("semesters", [{ name := "Fall", isActive := true }])]
        {}).1.details.tablesProcessed
      = (restoreOrder.filter (presentNonEmpty
          [("semesters", [{ name := "Fall", isActive := true }])])).length
    ∧ (runRestore "merge" false none
        [("semesters", [{ name := "Fall", isActive := true }])]
        {}).1.details.recordsRestored
      = (successesFrom "merge" restoreOrder
          [("semesters", [{ name := "Fall", isActive := true }])]
          (dbAfterClear false none {})).sum
    ∧ runRestore "merge" false none
        (("foo", [{ title := "x" }]) ::
          [("semesters", [{ name := "Fall", isActive := true }])]) {}
      = runRestore "merge" false none
          [("semesters", [{ name := "Fall", isActive := true }])] {} :=
  ⟨by decide,
   (restore_accounting "merge" false none
      [("semesters", [{ name := "Fall", isActive := true }])] {} "foo"
      [{ title := "x" }] (by decide)).1,
   (restore_accounting "merge" false none
      [("semesters", [{ name := "Fall", isActive := true }])] {} "foo"
      [{ title := "x" }] (by decide)).2.1,
   (restore_accounting "merge" false none
      [("semesters", [{ name := "Fall", isActive := true }])] {} "foo"
      [{ title := "x" }] (by decide)).2.2⟩

/-- C6 (refuting the claim as stated): the pre-clear's delete sequence is
not exactly the reverse of `restoreOrder` — the exact reverse would
delete `semester` before `playTime`, but the code deletes `playTime`
first. -/
theorem preclear_not_exact_reverse_order :
    ¬ deleteOrder = (restoreOrder.reverse).map modelName := by
  decide

/-- C6 as amended: the pre-clear deletes all rows from every known
collection, in a fixed order that is a permutation of the reverse restore
order — identical to it except that `playTime` is deleted before
`semester` — and a pre-clear failure (the delete at position `k` throwing
after the first `k` deletes already emptied their tables) is downgraded
to one warning while the restore still proceeds rather than aborting: the
replay runs on the partially cleared store exactly as a no-pre-clear
restore of that store would. -/
theorem preclear_failure_warns_and_proceeds (mode m : String) (k : Nat)
    (data : List (String × List Rec)) (db : DB) :
    List.Perm deleteOrder ((restoreOrder.reverse).map modelName)
    ∧ clearAll db = applyDeletes deleteOrder db
    ∧ (clearAll db).users = [] ∧ (clearAll db).songs = []
    ∧ (clearAll db).playTimes = [] ∧ (clearAll db).semesters = []
    ∧ (clearAll db).systemSettings = [] ∧ (clearAll db).votes = 0
    ∧ (clearAll db).schedules = 0 ∧ (clearAll db).notificationSettings = 0
    ∧ (clearAll db).notifications = 0
    ∧ dbAfterClear true none db = clearAll db
    ∧ dbAfterClear true (some (k, m)) db
        = applyDeletes (deleteOrder.take k) db
    ∧ (applyDeletes (deleteOrder.take 5) db).songs = []
    ∧ (applyDeletes (deleteOrder.take 5) db).users = db.users
    ∧ (runRestore mode true (some (k, m)) data db).1.details.warnings
        = ["清空数据失败: " ++ m]
    ∧ (runRestore mode true (some (k, m)) data db).1.success
        = (runRestore mode false none data
            (applyDeletes (deleteOrder.take k) db)).1.success
    ∧ (runRestore mode true (some (k, m)) data db).1.message
        = (runRestore mode false none data
            (applyDeletes (deleteOrder.take k) db)).1.message
    ∧ (runRestore mode true (some (k, m)) data db).1.details.errors
        = (runRestore mode false none data
            (applyDeletes (deleteOrder.take k) db)).1.details.errors
    ∧ (runRestore mode true (some (k, m)) data db).1.details.tablesProcessed
        = (runRestore mode false none data
            (applyDeletes (deleteOrder.take k) db)).1.details.tablesProcessed
    ∧ (runRestore mode true (some (k, m)) data db).1.details.recordsRestored
        = (runRestore mode false none data
            (applyDeletes (deleteOrder.take k) db)).1.details.recordsRestored
    ∧ (runRestore mode true (some (k, m)) data db).2
        = (runRestore mode false none data
            (applyDeletes (deleteOrder.take k) db)).2 := by
  have hw1 := processTables_set_warnings mode restoreOrder data
    (applyDeletes (deleteOrder.take k) db)
    initialResult.details ["清空数据失败: " ++ m]
  have hw2 := processTables_set_warnings mode restoreOrder data
    (applyDeletes (deleteOrder.take k) db)
    initialResult.details []
  have hr1 : runRestore mode true (some (k, m)) data db
      = finalizeResult
          ((processTables mode restoreOrder data
              (applyDeletes (deleteOrder.take k) db)
              initialResult.details).1,
           { (processTables mode restoreOrder data
                (applyDeletes (deleteOrder.take k) db)
                initialResult.details).2
             with warnings := ["清空数据失败: " ++ m] }) := by
    show finalizeResult _ = _
    rw [← hw1]
    exact rfl
  have hr2 : runRestore mode false none data
        (applyDeletes (deleteOrder.take k) db)
      = finalizeResult
          ((processTables mode restoreOrder data
              (applyDeletes (deleteOrder.take k) db)
              initialResult.details).1,
           { (processTables mode restoreOrder data
                (applyDeletes (deleteOrder.take k) db)
                initialResult.details).2
             with warnings := [] }) := by
    show finalizeResult _ = _
    rw [← hw2]
    exact rfl
  have hp1 := finalizeResult_spec
    ((processTables mode restoreOrder data
        (applyDeletes (deleteOrder.take k) db) initialResult.details).1,
     { (processTables mode restoreOrder data
          (applyDeletes (deleteOrder.take k) db) initialResult.details).2
       with warnings := ["清空数据失败: " ++ m] })
  have hp2 := finalizeResult_spec
    ((processTables mode restoreOrder data
        (applyDeletes (deleteOrder.take k) db) initialResult.details).1,
     { (processTables mode restoreOrder data
          (applyDeletes (deleteOrder.take k) db) initialResult.details).2
       with warnings := [] })
  refine ⟨by decide, rfl, rfl, rfl, rfl, rfl, rfl, rfl, rfl, rfl, rfl,
    rfl, rfl, rfl, rfl, ?_, ?_, ?_, ?_, ?_, ?_, ?_⟩
  · rw [hr1, hp1.2.2.1]
  · rw [hr1, hr2, hp1.1, hp2.1]
  · rw [hr1, hr2, hp1.2.1, hp2.2.1]
  · rw [hr1, hr2, hp1.2.2.1, hp2.2.2.1]
  · rw [hr1, hr2, hp1.2.2.1, hp2.2.2.1]
  · rw [hr1, hr2, hp1.2.2.1, hp2.2.2.1]
  · rw [hr1, hr2, hp1.2.2.2, hp2.2.2.2]

end VoiceHub
